import Mathlib

/-!
Shallow embedding of the benchmark driver and API endpoints of the
fastapi-asyncpg-vs-psycopg2 repository.

Sources embedded here:
  - src/benchmark_test.py : analyze_results, generate_report,
    analyze_advanced_results (percentage-difference kernel)
  - src/api/async_api/router.py and src/api/sync_api/router.py :
    benchmark, benchmark_mixed, benchmark_concurrent, create_user,
    create_product
  - src/migrations/versions/2025_04_08_0934-661c6221fef4_.py : the unique
    indexes on users.username, users.email and products.sku that the
    database enforces at commit time.

Python floats are modelled as rationals (ℚ); the only non-finite float the
embedded code can produce is float("inf") in generate_report, modelled by
the PFloat type.  Wall-clock times are parameters of the embedded
endpoints (the code reads them from time.time()).  Python exceptions are
modelled with Except.
-/

namespace Bench

/-- Python exceptions that the embedded code can raise. -/
inductive PyError where
  | zeroDivisionError
  | statisticsError
  | importError
  deriving DecidableEq, Repr

/-! ## Statistics kernel (from the statistics module usage in
    src/benchmark_test.py, analyze_results lines 142-188) -/

/-- statistics.mean: sum divided by length (only applied to non-empty lists
by analyze_results, which skips empty groups). -/
def pyMean (xs : List ℚ) : ℚ := xs.sum / xs.length

/-- Python sorted(xs) for rationals, used by statistics.median (any stable
sort computes the same list over a linear order with true equality). -/
def pySorted (xs : List ℚ) : List ℚ := xs.insertionSort (fun a b => a ≤ b)

/-- statistics.median: middle element of the sorted data for odd length,
average of the two middle elements for even length. -/
def pyMedian (xs : List ℚ) : ℚ :=
  let s := pySorted xs
  let n := s.length
  if n % 2 = 1 then s.getD (n / 2) 0
  else (s.getD (n / 2 - 1) 0 + s.getD (n / 2) 0) / 2

/-- Python min over a list (analyze_results applies it to non-empty lists). -/
def pyMin : List ℚ → ℚ
  | [] => 0
  | x :: xs => xs.foldl min x

/-- Python max over a list (analyze_results applies it to non-empty lists). -/
def pyMax : List ℚ → ℚ
  | [] => 0
  | x :: xs => xs.foldl max x

/-- The sample variance with N-1 denominator, the quantity whose square
root statistics.stdev returns. -/
def sampleVariance (xs : List ℚ) : ℚ :=
  (xs.map (fun x => (x - pyMean xs) ^ 2)).sum / ((xs.length : ℚ) - 1)

/-- statistics.stdev: raises StatisticsError on fewer than two data points,
otherwise the square root of the sample variance.  The square root does not
stay in ℚ, so the embedding is parametric in the square-root function; every
theorem below holds for all such functions. -/
def pyStdev (sqrtFn : ℚ → ℚ) (xs : List ℚ) : Except PyError ℚ :=
  if xs.length ≥ 2 then .ok (sqrtFn (sampleVariance xs)) else .error .statisticsError

/-- The guarded stdev expression of analyze_results:
stdev(xs) if len(xs) > 1 else 0  (benchmark_test.py lines 169, 176, 183). -/
def stdevField (sqrtFn : ℚ → ℚ) (xs : List ℚ) : Except PyError ℚ :=
  if xs.length > 1 then pyStdev sqrtFn xs else .ok 0

/-- The value of the guarded stdev expression (it never raises: the guard
implies the two-data-point precondition of statistics.stdev). -/
def stdevVal (sqrtFn : ℚ → ℚ) (xs : List ℚ) : ℚ :=
  if xs.length > 1 then sqrtFn (sampleVariance xs) else 0

/-! ## analyze_results (src/benchmark_test.py lines 142-188) -/

/-- One per-iteration sample record built by run_async_tests /
run_sync_tests (operations is present only for mixed tests, hence Option). -/
structure SampleRec where
  count : ℕ
  dbExecutionTime : ℚ
  totalTime : ℚ
  opsPerSecond : ℚ
  operations : Option ℕ
  deriving DecidableEq, Repr, Inhabited

/-- The five-number statistics dictionary analyze_results builds for each
of the three measured quantities. -/
structure Stats where
  mean : ℚ
  median : ℚ
  min : ℚ
  max : ℚ
  stdev : ℚ
  deriving DecidableEq, Repr, Inhabited

/-- The mean/median/min/max/stdev dictionary computed over one list of raw
values (benchmark_test.py lines 164-184). -/
def mkStats (sqrtFn : ℚ → ℚ) (xs : List ℚ) : Stats :=
  { mean := pyMean xs
    median := pyMedian xs
    min := pyMin xs
    max := pyMax xs
    stdev := stdevVal sqrtFn xs }

/-- One element of the list returned by analyze_results. -/
structure AnalysisEntry where
  testType : String
  count : ℕ
  operations : ℕ
  iterations : ℕ
  dbExecutionTime : Stats
  totalTime : Stats
  opsPerSecond : Stats
  deriving DecidableEq, Repr, Inhabited

/-- The analysis dictionary analyze_results appends for one non-empty
group (count_results[0] supplies count and operations, the default
count * 2 applying when the samples carry no operations key). -/
def analyzeGroup (sqrtFn : ℚ → ℚ) (testType : String) (g : List SampleRec) :
    AnalysisEntry :=
  { testType := testType
    count := (g.headD default).count
    operations := (g.headD default).operations.getD ((g.headD default).count * 2)
    iterations := g.length
    dbExecutionTime := mkStats sqrtFn (g.map (·.dbExecutionTime))
    totalTime := mkStats sqrtFn (g.map (·.totalTime))
    opsPerSecond := mkStats sqrtFn (g.map (·.opsPerSecond)) }

/-- analyze_results: for every non-empty group, statistics over the three
projected value lists; empty groups are skipped with continue
(benchmark_test.py lines 142-188). -/
def analyze_results (sqrtFn : ℚ → ℚ) (results : List (List SampleRec))
    (testType : String) : List AnalysisEntry :=
  results.filterMap fun g =>
    if g.isEmpty then none else some (analyzeGroup sqrtFn testType g)

/-! ## generate_report (src/benchmark_test.py lines 191-243) -/

/-- A Python float value as generate_report can produce it: either a finite
value or float("inf") (line 213); no other non-finite value arises there. -/
inductive PFloat where
  | val (q : ℚ)
  | inf
  deriving DecidableEq, Repr, Inhabited

/-- Python float addition restricted to the values occurring in
generate_report (finite values and positive infinity). -/
def PFloat.add : PFloat → PFloat → PFloat
  | .val a, .val b => .val (a + b)
  | _, _ => .inf

/-- Python float division by a positive integer count, as in the
avg_percentage_diff computation. -/
def PFloat.divNat : PFloat → ℕ → PFloat
  | .val a, n => .val (a / n)
  | .inf, _ => .inf

/-- The performance_difference_percent expression of generate_report
(lines 210-213): ((async - sync) / sync) * 100 when sync > 0, otherwise
float("inf") when async > 0, otherwise 0. -/
def perfDiffPercent (asyncOps syncOps : ℚ) : PFloat :=
  if syncOps > 0 then .val ((asyncOps - syncOps) / syncOps * 100)
  else if asyncOps > 0 then .inf
  else .val 0

/-- One element of report["comparison"] (lines 224-233). -/
structure ComparisonEntry where
  count : ℕ
  operations : ℕ
  asyncOps : ℚ
  syncOps : ℚ
  diffPercent : PFloat
  faster : String
  deriving DecidableEq, Repr, Inhabited

/-- report["summary"] (lines 236-241). -/
structure ReportSummary where
  overallFaster : String
  asyncWins : ℕ
  syncWins : ℕ
  avgPercentageDiff : PFloat
  deriving DecidableEq, Repr

/-- The full report dictionary of generate_report. -/
structure Report where
  testType : String
  asyncResults : List AnalysisEntry
  syncResults : List AnalysisEntry
  comparison : List ComparisonEntry
  summary : ReportSummary
  deriving DecidableEq, Repr

/-- The comparison entry appended for one matched pair (lines 224-233). -/
def mkComp (ar sr : AnalysisEntry) : ComparisonEntry :=
  let asyncOps := ar.opsPerSecond.mean
  let syncOps := sr.opsPerSecond.mean
  { count := ar.count
    operations := ar.operations
    asyncOps := asyncOps
    syncOps := syncOps
    diffPercent := perfDiffPercent asyncOps syncOps
    faster := if asyncOps > syncOps then "async" else "sync" }

/-- The lookup next((r for r in sync_analysis if r["count"] == count), None)
of line 203. -/
def findSync (syncAnalysis : List AnalysisEntry) (count : ℕ) : Option AnalysisEntry :=
  syncAnalysis.find? fun r => r.count == count

/-- The loop accumulator of generate_report: async_wins, sync_wins,
total_diff_percent, comparison_count, report["comparison"]. -/
structure ReportAcc where
  asyncWins : ℕ
  syncWins : ℕ
  totalDiffPercent : PFloat
  comparisonCount : ℕ
  comparison : List ComparisonEntry
  deriving DecidableEq, Repr

/-- One iteration of the for async_result in async_analysis loop
(lines 201-233): look up the matching sync entry by count; if absent do
nothing, otherwise update wins, running totals and append the comparison. -/
def reportStep (syncAnalysis : List AnalysisEntry) (acc : ReportAcc)
    (ar : AnalysisEntry) : ReportAcc :=
  match findSync syncAnalysis ar.count with
  | none => acc
  | some sr =>
    let asyncOps := ar.opsPerSecond.mean
    let syncOps := sr.opsPerSecond.mean
    { asyncWins := if asyncOps > syncOps then acc.asyncWins + 1 else acc.asyncWins
      syncWins := if asyncOps > syncOps then acc.syncWins else acc.syncWins + 1
      totalDiffPercent := acc.totalDiffPercent.add (perfDiffPercent asyncOps syncOps)
      comparisonCount := acc.comparisonCount + 1
      comparison := acc.comparison ++ [mkComp ar sr] }

/-- generate_report (lines 191-243): the matching loop followed by the
summary section. -/
def generate_report (asyncAnalysis syncAnalysis : List AnalysisEntry)
    (testType : String) : Report :=
  let acc := asyncAnalysis.foldl (reportStep syncAnalysis)
    { asyncWins := 0, syncWins := 0, totalDiffPercent := .val 0
      comparisonCount := 0, comparison := [] }
  { testType := testType
    asyncResults := asyncAnalysis
    syncResults := syncAnalysis
    comparison := acc.comparison
    summary :=
      { overallFaster := if acc.asyncWins > acc.syncWins then "async" else "sync"
        asyncWins := acc.asyncWins
        syncWins := acc.syncWins
        avgPercentageDiff :=
          if acc.comparisonCount > 0 then acc.totalDiffPercent.divNat acc.comparisonCount
          else .val 0 } }

/-! ## analyze_advanced_results percentage kernel
    (src/benchmark_test.py lines 455-468 and the two analogous blocks) -/

/-- The percentage_diff expression of analyze_advanced_results (lines
459-462): ((async - sync) / sync) * 100 when sync > 0, otherwise the
sentinel 100 when async > 0, else 0.  Unlike generate_report this branch
never produces float("inf"). -/
def advPercentageDiff (asyncOps syncOps : ℚ) : ℚ :=
  if syncOps > 0 then (asyncOps - syncOps) / syncOps * 100
  else if asyncOps > 0 then 100
  else 0

/-- The per-pair comparison record of analyze_advanced_results
(lines 464-469). -/
structure AdvComparison where
  asyncOps : ℚ
  syncOps : ℚ
  percentageDiff : ℚ
  faster : String
  deriving DecidableEq, Repr

/-- The per-pair analysis entry built from one async/sync response pair
(analyze_advanced_results lines 455-469). -/
def advComparePair (asyncOps syncOps : ℚ) : AdvComparison :=
  { asyncOps := asyncOps
    syncOps := syncOps
    percentageDiff := advPercentageDiff asyncOps syncOps
    faster := if asyncOps > syncOps then "asyncpg" else "psycopg2" }

/-! ## Standard benchmark endpoints
    (src/api/async_api/router.py lines 172-195,
     src/api/sync_api/router.py lines 161-184) -/

/-- The JSON body returned by the benchmark endpoints. -/
structure BenchResponse where
  database : String
  operations : ℕ
  executionTime : ℚ
  opsPerSecond : ℚ
  deriving DecidableEq, Repr

/-- The guarded throughput computation shared by every benchmark endpoint:
operations_per_second = 0, overwritten with operations / execution_time
only when execution_time > 0. -/
def opsPerSecondOf (operations : ℕ) (executionTime : ℚ) : ℚ :=
  if executionTime > 0 then (operations : ℚ) / executionTime else 0

/-- GET /async/benchmark: count iterations of two SELECTs, so
operations = count * 2; execution_time is the measured wall clock, a
parameter of the embedding. -/
def benchmark_async (count : ℕ) (executionTime : ℚ) : BenchResponse :=
  { database := "asyncpg"
    operations := count * 2
    executionTime := executionTime
    opsPerSecond := opsPerSecondOf (count * 2) executionTime }

/-- GET /sync/benchmark: identical shape with the psycopg2 driver. -/
def benchmark_sync (count : ℕ) (executionTime : ℚ) : BenchResponse :=
  { database := "psycopg2"
    operations := count * 2
    executionTime := executionTime
    opsPerSecond := opsPerSecondOf (count * 2) executionTime }

/-! ## Mixed benchmark
    (src/api/async_api/router.py lines 198-283,
     src/api/sync_api/router.py lines 187-267) -/

/-- The database state the mixed benchmark manipulates: the ids of the
user and product rows (insertion assigns increasing ids), the id counters,
and the running operations counter of the endpoint. -/
structure MixedState where
  users : List ℕ
  products : List ℕ
  nextUserId : ℕ
  nextProductId : ℕ
  operations : ℕ
  deriving DecidableEq, Repr

/-- The bucket selector of the mixed loop: the code dispatches on
i % 4 (0 create, 1 read, 2 update, 3 delete). -/
def mixedBucket (i : ℕ) : ℕ := i % 4

/-- Delete of the row returned by order_by(id.desc()).first(): the row
with the greatest id. -/
def removeMaxId (rows : List ℕ) : List ℕ := rows.erase (rows.foldl max 0)

/-- One iteration of the mixed benchmark loop.  Create adds one user and
one product (operations += 2); read issues two SELECTs (operations += 2);
update touches the first user and first product only if present
(operations += 1 for each actually-performed update); delete removes the
highest-id user and product only if present (operations += 1 each).
A missing target makes the sub-operation a silent no-op. -/
def mixedStep (i : ℕ) (s : MixedState) : MixedState :=
  if mixedBucket i = 0 then
    { s with
      users := s.users ++ [s.nextUserId]
      nextUserId := s.nextUserId + 1
      products := s.products ++ [s.nextProductId]
      nextProductId := s.nextProductId + 1
      operations := s.operations + 2 }
  else if mixedBucket i = 1 then
    { s with operations := s.operations + 2 }
  else if mixedBucket i = 2 then
    let s1 := if s.users.isEmpty then s else { s with operations := s.operations + 1 }
    if s1.products.isEmpty then s1 else { s1 with operations := s1.operations + 1 }
  else
    let s1 :=
      if s.users.isEmpty then s
      else { s with users := removeMaxId s.users, operations := s.operations + 1 }
    if s1.products.isEmpty then s1
    else { s1 with products := removeMaxId s1.products, operations := s1.operations + 1 }

/-- The for i in range(count) loop of benchmark_mixed. -/
def mixedLoop (count : ℕ) (s0 : MixedState) : MixedState :=
  (List.range count).foldl (fun s i => mixedStep i s) s0

/-- GET /async/benchmark/mixed and GET /sync/benchmark/mixed: run the
mixed loop, then return the operations counter and the guarded
throughput. -/
def benchmark_mixed (database : String) (count : ℕ) (s0 : MixedState)
    (executionTime : ℚ) : BenchResponse × MixedState :=
  let s := mixedLoop count s0
  ({ database := database
     operations := s.operations
     executionTime := executionTime
     opsPerSecond := opsPerSecondOf s.operations executionTime }, s)

/-! ## Concurrent benchmark
    (src/api/async_api/router.py lines 396-445,
     src/api/sync_api/router.py lines 366-426) -/

/-- Python floor division a // b: raises ZeroDivisionError when b = 0. -/
def pyFloorDiv (a b : ℕ) : Except PyError ℕ :=
  if b = 0 then .error .zeroDivisionError else .ok (a / b)

/-- The per-worker body of the concurrent benchmarks (the async coroutine
db_task of async_api/router.py lines 406-422 and the identically counting
thread body db_task of sync_api/router.py lines 375-396):
count // concurrency loop iterations, each issuing three SELECT
operations, returning the per-task operation count. -/
def db_task (count concurrency taskId : ℕ) : Except PyError ℕ := do
  let iterations ← pyFloorDiv count concurrency
  pure (3 * iterations)

/-- The names the db package binds (db/__init__.py re-exports exactly
these from db/async_db.py and db/sync_db.py; the two submodules are also
importable attributes).  async_session is not among them. -/
def dbPackageExports : List String :=
  ["get_db", "get_db_session", "Base", "SQLALCHEMY_DATABASE_URL",
   "get_db_session_sync", "get_db_sync", "async_db", "sync_db"]

/-- A function-body statement from db import <name>: binds the name when
the db package exports it, and raises ImportError on every execution
otherwise. -/
def importFromDb (name : String) : Except PyError Unit :=
  if dbPackageExports.contains name then .ok () else .error .importError

/-- The extra fields of the concurrent benchmark response. -/
structure ConcurrentResponse where
  database : String
  operations : ℕ
  executionTime : ℚ
  opsPerSecond : ℚ
  concurrency : ℕ
  deriving DecidableEq, Repr

/-- GET /async/benchmark/concurrent: the body first executes
from db import async_session (router.py line 401); db/__init__.py does not
bind async_session, so that statement raises ImportError on every
invocation, before the timer starts and before any worker task exists.
The rest of the body — one db_task per worker over range(concurrency),
gathered and summed into the guarded-throughput response — is dead code
that no invocation reaches. -/
def benchmark_concurrent (count concurrency : ℕ) (executionTime : ℚ) :
    Except PyError ConcurrentResponse := do
  let _ ← importFromDb "async_session"
  let results ← (List.range concurrency).mapM (db_task count concurrency)
  let totalOperations := results.sum
  pure
    { database := "asyncpg"
      operations := totalOperations
      executionTime := executionTime
      opsPerSecond := opsPerSecondOf totalOperations executionTime
      concurrency := concurrency }

/-- GET /sync/benchmark/concurrent: one thread per worker appends its
db_task result to a shared list; an exception inside a thread is swallowed
by the threading module, so that thread simply appends nothing.  The
per-thread from db.sync_db import SessionLocal targets an existing module
attribute and succeeds, so this endpoint always returns. -/
def benchmark_concurrent_sync (count concurrency : ℕ) (executionTime : ℚ) :
    ConcurrentResponse :=
  let results := (List.range concurrency).filterMap
    fun i => (db_task count concurrency i).toOption
  let totalOperations := results.sum
  { database := "psycopg2"
    operations := totalOperations
    executionTime := executionTime
    opsPerSecond := opsPerSecondOf totalOperations executionTime
    concurrency := concurrency }

/-! ## Entity CRUD creates
    (src/api/async_api/router.py lines 27-41 and 95-117,
     src/api/sync_api/router.py lines 27-39 and 90-108;
     unique indexes from the migration 661c6221fef4) -/

/-- The outcomes a create endpoint can produce besides success: the
HTTPException the endpoint raises itself (a domain error with a status
code and detail message), or the raw IntegrityError the database driver
raises at commit time on a unique-constraint violation. -/
inductive ApiError where
  | httpException (statusCode : ℕ) (detail : String)
  | integrityError
  deriving DecidableEq, Repr

/-- A row of the users table. -/
structure UserRow where
  id : ℕ
  username : String
  email : String
  fullName : Option String
  deriving DecidableEq, Repr

/-- A row of the products table. -/
structure ProductRow where
  id : ℕ
  name : String
  price : ℚ
  sku : String
  description : Option String
  deriving DecidableEq, Repr

/-- The database visible to the CRUD endpoints. -/
structure Db where
  users : List UserRow
  products : List ProductRow
  nextUserId : ℕ
  nextProductId : ℕ
  deriving DecidableEq, Repr

/-- POST /async/users and POST /sync/users: the endpoint checks only the
username for an existing row and raises HTTPException(400) on a hit; it
never checks the email, so a colliding email reaches the INSERT and the
unique index ix_users_email makes the commit raise a raw IntegrityError
(the transaction rolls back, so no row is created in either error case). -/
def create_user (username email : String) (fullName : Option String)
    (db : Db) : Except ApiError (UserRow × Db) :=
  if db.users.any (fun u => u.username == username) then
    .error (.httpException 400 "Username already registered")
  else if db.users.any (fun u => u.email == email) then
    .error .integrityError
  else
    let user : UserRow :=
      { id := db.nextUserId, username := username, email := email, fullName := fullName }
    .ok (user, { db with users := db.users ++ [user], nextUserId := db.nextUserId + 1 })

/-- POST /async/products and POST /sync/products: the endpoint checks the
sku for an existing row and raises HTTPException(400) on a hit; sku is the
only unique column of products besides the primary key, so the insert
succeeds otherwise. -/
def create_product (name : String) (price : ℚ) (sku : String)
    (description : Option String) (db : Db) : Except ApiError (ProductRow × Db) :=
  if db.products.any (fun p => p.sku == sku) then
    .error (.httpException 400 "Product with this SKU already exists")
  else
    let product : ProductRow :=
      { id := db.nextProductId, name := name, price := price, sku := sku
        description := description }
    .ok (product,
      { db with products := db.products ++ [product], nextProductId := db.nextProductId + 1 })

/-! ## Spec-side helper definitions used by the theorems below -/

/-- A Stats record whose mean and median lie between its min and max. -/
def statsBounded (st : Stats) : Prop :=
  st.min ≤ st.mean ∧ st.mean ≤ st.max ∧ st.min ≤ st.median ∧ st.median ≤ st.max

instance (st : Stats) : Decidable (statsBounded st) := by
  unfold statsBounded; infer_instance

/-- The async/sync entry pairs matched by generate_report (one pair per
async entry whose count has a match in the sync analysis). -/
def matchedPairs (syncAnalysis asyncAnalysis : List AnalysisEntry) :
    List (AnalysisEntry × AnalysisEntry) :=
  asyncAnalysis.filterMap fun ar =>
    (findSync syncAnalysis ar.count).map fun sr => (ar, sr)

/-- Whether the async side of a matched pair has the strictly greater
throughput mean (the win condition of generate_report). -/
def asyncFaster (p : AnalysisEntry × AnalysisEntry) : Bool :=
  p.2.opsPerSecond.mean < p.1.opsPerSecond.mean

/-- The comparison entries of all matched pairs, in order. -/
def matchedComps (syncAnalysis asyncAnalysis : List AnalysisEntry) :
    List ComparisonEntry :=
  (matchedPairs syncAnalysis asyncAnalysis).map fun p => mkComp p.1 p.2

/-- The sum of the matched pairs' percentage differences. -/
def totalDiffOf (pairs : List (AnalysisEntry × AnalysisEntry)) : PFloat :=
  pairs.foldr
    (fun p acc => (perfDiffPercent p.1.opsPerSecond.mean p.2.opsPerSecond.mean).add acc)
    (.val 0)

/-- A minimal analysis entry with a given count and throughput mean, used
to instantiate the reporter theorems at concrete inputs. -/
def entryOf (count : ℕ) (opsMean : ℚ) : AnalysisEntry :=
  { testType := "t"
    count := count
    operations := count * 2
    iterations := 1
    dbExecutionTime := ⟨0, 0, 0, 0, 0⟩
    totalTime := ⟨0, 0, 0, 0, 0⟩
    opsPerSecond := ⟨opsMean, 0, 0, 0, 0⟩ }

/-! ## PFloat lemmas -/

theorem PFloat.add_val_zero : ∀ x : PFloat, x.add (.val 0) = x
  | .val a => by simp [PFloat.add]
  | .inf => rfl

theorem PFloat.add_assoc (x y z : PFloat) : (x.add y).add z = x.add (y.add z) := by
  cases x <;> cases y <;> cases z <;> simp [PFloat.add] <;> ring

/-! ## Extremum lemmas for the statistics kernel -/

theorem foldl_min_le_init (l : List ℚ) (a : ℚ) : l.foldl min a ≤ a := by
  induction l generalizing a with
  | nil => exact le_refl a
  | cons b l ih => exact le_trans (ih (min a b)) (min_le_left a b)

theorem foldl_min_le_mem {x : ℚ} (l : List ℚ) (a : ℚ) (hx : x ∈ l) :
    l.foldl min a ≤ x := by
  induction l generalizing a with
  | nil => cases hx
  | cons b l ih =>
    rcases List.mem_cons.mp hx with h | h
    · subst h
      exact le_trans (foldl_min_le_init l (min a x)) (min_le_right a x)
    · exact ih (min a b) h

theorem init_le_foldl_max (l : List ℚ) (a : ℚ) : a ≤ l.foldl max a := by
  induction l generalizing a with
  | nil => exact le_refl a
  | cons b l ih => exact le_trans (le_max_left a b) (ih (max a b))

theorem mem_le_foldl_max {x : ℚ} (l : List ℚ) (a : ℚ) (hx : x ∈ l) :
    x ≤ l.foldl max a := by
  induction l generalizing a with
  | nil => cases hx
  | cons b l ih =>
    rcases List.mem_cons.mp hx with h | h
    · subst h
      exact le_trans (le_max_right a x) (init_le_foldl_max l (max a x))
    · exact ih (max a b) h

theorem pyMin_le_of_mem {xs : List ℚ} {x : ℚ} (hx : x ∈ xs) : pyMin xs ≤ x := by
  cases xs with
  | nil => cases hx
  | cons a l =>
    show l.foldl min a ≤ x
    rcases List.mem_cons.mp hx with h | h
    · subst h; exact foldl_min_le_init l x
    · exact foldl_min_le_mem l a h

theorem mem_le_pyMax {xs : List ℚ} {x : ℚ} (hx : x ∈ xs) : x ≤ pyMax xs := by
  cases xs with
  | nil => cases hx
  | cons a l =>
    show x ≤ l.foldl max a
    rcases List.mem_cons.mp hx with h | h
    · subst h; exact init_le_foldl_max l x
    · exact mem_le_foldl_max l a h

theorem pyMin_le_pyMean {xs : List ℚ} (h : xs ≠ []) : pyMin xs ≤ pyMean xs := by
  have hlen : 0 < (xs.length : ℚ) := by
    exact_mod_cast List.length_pos.mpr h
  have hsum : (xs.length : ℚ) * pyMin xs ≤ xs.sum := by
    have := List.card_nsmul_le_sum xs (pyMin xs) fun x hx => pyMin_le_of_mem hx
    rwa [nsmul_eq_mul] at this
  rw [pyMean, le_div_iff₀ hlen, mul_comm]
  exact hsum

theorem pyMean_le_pyMax {xs : List ℚ} (h : xs ≠ []) : pyMean xs ≤ pyMax xs := by
  have hlen : 0 < (xs.length : ℚ) := by
    exact_mod_cast List.length_pos.mpr h
  have hsum : xs.sum ≤ (xs.length : ℚ) * pyMax xs := by
    have := List.sum_le_card_nsmul xs (pyMax xs) fun x hx => mem_le_pyMax hx
    rwa [nsmul_eq_mul] at this
  rw [pyMean, div_le_iff₀ hlen, mul_comm]
  exact hsum

theorem mem_of_mem_pySorted {xs : List ℚ} {x : ℚ} (hx : x ∈ pySorted xs) :
    x ∈ xs := (List.mem_insertionSort _).mp hx

theorem length_pySorted (xs : List ℚ) : (pySorted xs).length = xs.length :=
  List.length_insertionSort _ xs

theorem pyMedian_bounds {xs : List ℚ} (h : xs ≠ []) :
    pyMin xs ≤ pyMedian xs ∧ pyMedian xs ≤ pyMax xs := by
  have hpos : 0 < (pySorted xs).length := by
    rw [length_pySorted]; exact List.length_pos.mpr h
  have hbound : ∀ i : ℕ, i < (pySorted xs).length →
      pyMin xs ≤ (pySorted xs).getD i 0 ∧ (pySorted xs).getD i 0 ≤ pyMax xs := by
    intro i hi
    rw [List.getD_eq_getElem (pySorted xs) 0 hi]
    have hmem : (pySorted xs)[i] ∈ xs := mem_of_mem_pySorted (List.getElem_mem hi)
    exact ⟨pyMin_le_of_mem hmem, mem_le_pyMax hmem⟩
  unfold pyMedian
  by_cases hodd : (pySorted xs).length % 2 = 1
  · simp only [hodd, if_pos]
    exact hbound _ (Nat.div_lt_self hpos (by norm_num))
  · simp only [hodd, if_neg, if_false]
    have h2 : 2 ≤ (pySorted xs).length := by omega
    have hi2 : (pySorted xs).length / 2 < (pySorted xs).length :=
      Nat.div_lt_self hpos (by norm_num)
    have hi1 : (pySorted xs).length / 2 - 1 < (pySorted xs).length := by omega
    have hb1 := hbound _ hi1
    have hb2 := hbound _ hi2
    constructor
    · have := hb1.1; have := hb2.1; linarith
    · have := hb1.2; have := hb2.2; linarith

theorem mkStats_bounded (sqrtFn : ℚ → ℚ) {xs : List ℚ} (h : xs ≠ []) :
    statsBounded (mkStats sqrtFn xs) := by
  obtain ⟨h1, h2⟩ := pyMedian_bounds h
  exact ⟨pyMin_le_pyMean h, pyMean_le_pyMax h, h1, h2⟩

/-! ## Claim C5 -/

/-- C5: for every non-empty sample group, the aggregate statistics produced
by analyze_results satisfy min ≤ mean ≤ max and min ≤ median ≤ max for each
of execution time, total time, and throughput. -/
theorem analyze_results_stats_bounded (sqrtFn : ℚ → ℚ)
    (results : List (List SampleRec)) (testType : String)
    (e : AnalysisEntry) (he : e ∈ analyze_results sqrtFn results testType) :
    statsBounded e.dbExecutionTime ∧ statsBounded e.totalTime ∧
      statsBounded e.opsPerSecond := by
  obtain ⟨g, hg, hfe⟩ := List.mem_filterMap.mp he
  by_cases hne : g.isEmpty
  · simp [hne] at hfe
  · simp only [hne, Bool.false_eq_true, if_false, Option.some.injEq] at hfe
    subst hfe
    have hgn : g ≠ [] := by
      cases g
      · simp at hne
      · simp
    have hmapne : ∀ f : SampleRec → ℚ, g.map f ≠ [] := fun f hmap =>
      hgn (List.map_eq_nil_iff.mp hmap)
    simp only [analyzeGroup]
    exact ⟨mkStats_bounded sqrtFn (hmapne _), mkStats_bounded sqrtFn (hmapne _),
      mkStats_bounded sqrtFn (hmapne _)⟩

/-- Witness for C5 at a concrete two-sample group. -/
theorem analyze_results_stats_bounded_witness :
    statsBounded (analyzeGroup (fun q => q) "t"
      [⟨10, 1, 2, 3, none⟩, ⟨10, 2, 1, 5, none⟩]).dbExecutionTime ∧
    statsBounded (analyzeGroup (fun q => q) "t"
      [⟨10, 1, 2, 3, none⟩, ⟨10, 2, 1, 5, none⟩]).totalTime ∧
    statsBounded (analyzeGroup (fun q => q) "t"
      [⟨10, 1, 2, 3, none⟩, ⟨10, 2, 1, 5, none⟩]).opsPerSecond :=
  analyze_results_stats_bounded (fun q => q)
    [[⟨10, 1, 2, 3, none⟩, ⟨10, 2, 1, 5, none⟩]] "t"
    (analyzeGroup (fun q => q) "t" [⟨10, 1, 2, 3, none⟩, ⟨10, 2, 1, 5, none⟩])
    (List.mem_singleton.mpr rfl)

/-! ## Claim C6 -/

/-- C6: for a sample group of size exactly 1, analyze_results returns a
standard deviation of exactly 0 for execution time, total time and
throughput, and the guarded stdev expression never raises (for every input
list it returns a value, namely the Stats field analyze_results stores). -/
theorem analyze_results_singleton_stdev (sqrtFn : ℚ → ℚ) (testType : String)
    (s : SampleRec) :
    ((analyze_results sqrtFn [[s]] testType).map fun e =>
        (e.dbExecutionTime.stdev, e.totalTime.stdev, e.opsPerSecond.stdev))
      = [(0, 0, 0)] ∧
    ∀ xs : List ℚ, stdevField sqrtFn xs = .ok (stdevVal sqrtFn xs) := by
  constructor
  · simp [analyze_results, analyzeGroup, mkStats, stdevVal]
  · intro xs
    unfold stdevField pyStdev stdevVal
    by_cases h : xs.length > 1
    · rw [if_pos h, if_pos h, if_pos (by omega)]
    · rw [if_neg h, if_neg h]

/-! ## generate_report characterization -/

theorem countP_add_countP_not {α : Type} (p : α → Bool) (l : List α) :
    l.countP p + l.countP (fun a => !p a) = l.length := by
  induction l with
  | nil => rfl
  | cons a l ih =>
    rw [List.countP_cons, List.countP_cons]
    cases h : p a <;> simp [h] <;> omega

theorem reportStep_foldl (syncA asyncA : List AnalysisEntry) (acc : ReportAcc) :
    asyncA.foldl (reportStep syncA) acc =
      { asyncWins := acc.asyncWins + (matchedPairs syncA asyncA).countP asyncFaster
        syncWins := acc.syncWins +
          (matchedPairs syncA asyncA).countP fun p => !asyncFaster p
        totalDiffPercent :=
          acc.totalDiffPercent.add (totalDiffOf (matchedPairs syncA asyncA))
        comparisonCount := acc.comparisonCount + (matchedPairs syncA asyncA).length
        comparison := acc.comparison ++ matchedComps syncA asyncA } := by
  induction asyncA generalizing acc with
  | nil =>
    simp [matchedPairs, matchedComps, totalDiffOf, PFloat.add_val_zero]
  | cons ar rest ih =>
    rw [List.foldl_cons, ih]
    cases hfind : findSync syncA ar.count with
    | none =>
      simp [reportStep, hfind, matchedPairs, matchedComps, List.filterMap_cons]
    | some sr =>
      by_cases hgt : sr.opsPerSecond.mean < ar.opsPerSecond.mean <;>
        simp only [reportStep, hfind, matchedPairs, matchedComps, totalDiffOf,
          List.filterMap_cons, Option.map_some', List.map_cons, List.foldr_cons,
          List.countP_cons, List.length_cons, asyncFaster, gt_iff_lt, hgt,
          if_true, if_false, decide_eq_true_eq, Bool.not_eq_true', ite_true,
          ite_false, PFloat.add_assoc, ReportAcc.mk.injEq, decide_eq_false_iff_not,
          not_false_iff, not_true, Bool.not_true, Bool.not_false] <;>
        refine ⟨by omega, by omega, trivial, by omega, ?_⟩ <;>
        rw [List.append_assoc, List.singleton_append]

theorem generate_report_spec (asyncA syncA : List AnalysisEntry) (tt : String) :
    (generate_report asyncA syncA tt).comparison = matchedComps syncA asyncA ∧
    (generate_report asyncA syncA tt).summary.asyncWins
      = (matchedPairs syncA asyncA).countP asyncFaster ∧
    (generate_report asyncA syncA tt).summary.syncWins
      = (matchedPairs syncA asyncA).countP fun p => !asyncFaster p := by
  unfold generate_report
  rw [reportStep_foldl]
  simp

theorem matchedComps_mem {syncA asyncA : List AnalysisEntry} {c : ComparisonEntry}
    (hc : c ∈ matchedComps syncA asyncA) :
    ∃ ar ∈ asyncA, ∃ sr ∈ syncA, sr.count = ar.count ∧ c = mkComp ar sr := by
  obtain ⟨p, hp, hpc⟩ := List.mem_map.mp hc
  obtain ⟨ar, har, hfa⟩ := List.mem_filterMap.mp hp
  obtain ⟨sr, hfind, hps⟩ := Option.map_eq_some'.mp hfa
  have hfind2 : List.find? (fun r => r.count == ar.count) syncA = some sr := hfind
  have hbeq := List.find?_some hfind2
  refine ⟨ar, har, sr, List.mem_of_find?_eq_some hfind2, ?_, ?_⟩
  · exact beq_iff_eq.mp hbeq
  · rw [← hpc, ← hps]

theorem matchedPairs_length (syncA asyncA : List AnalysisEntry) :
    (matchedPairs syncA asyncA).length
      = (asyncA.filter fun ar => (findSync syncA ar.count).isSome).length := by
  induction asyncA with
  | nil => rfl
  | cons ar rest ih =>
    rw [matchedPairs, List.filterMap_cons, List.filter_cons]
    cases hfind : findSync syncA ar.count with
    | none => simpa [hfind, matchedPairs] using ih
    | some sr => simpa [hfind, matchedPairs] using ih

/-! ## Claim C4 -/

/-- C4: every comparison entry of generate_report references a count
present in both analysis lists; an async count with no sync match produces
no entry, so the number of entries equals the number of matched async
entries and equals asyncWins + syncWins of the summary. -/
theorem generate_report_comparison_matched (asyncA syncA : List AnalysisEntry)
    (tt : String) :
    (∀ c ∈ (generate_report asyncA syncA tt).comparison,
        c.count ∈ asyncA.map (fun r => r.count) ∧
        c.count ∈ syncA.map (fun r => r.count)) ∧
    ((generate_report asyncA syncA tt).comparison.length
      = (asyncA.filter fun ar => (findSync syncA ar.count).isSome).length) ∧
    ((generate_report asyncA syncA tt).comparison.length
      = (generate_report asyncA syncA tt).summary.asyncWins
        + (generate_report asyncA syncA tt).summary.syncWins) := by
  obtain ⟨hcomp, haw, hsw⟩ := generate_report_spec asyncA syncA tt
  refine ⟨?_, ?_, ?_⟩
  · intro c hc
    rw [hcomp] at hc
    obtain ⟨ar, har, sr, hsr, hcount, hceq⟩ := matchedComps_mem hc
    subst hceq
    constructor
    · exact List.mem_map.mpr ⟨ar, har, rfl⟩
    · exact List.mem_map.mpr ⟨sr, hsr, hcount⟩
  · rw [hcomp, matchedComps, List.length_map, matchedPairs_length]
  · rw [hcomp, haw, hsw, matchedComps, List.length_map,
      countP_add_countP_not asyncFaster (matchedPairs syncA asyncA)]

/-- Witness for C4: counts 10 and 20 on the async side, only 10 on the
sync side, so exactly one comparison is emitted. -/
theorem generate_report_comparison_matched_witness :
    ((generate_report [entryOf 10 3, entryOf 20 4] [entryOf 10 2]
        "t").comparison.headD default).count
      ∈ ([entryOf 10 3, entryOf 20 4].map fun r => r.count) ∧
    ((generate_report [entryOf 10 3, entryOf 20 4] [entryOf 10 2]
        "t").comparison.headD default).count
      ∈ ([entryOf 10 2].map fun r => r.count) ∧
    (generate_report [entryOf 10 3, entryOf 20 4] [entryOf 10 2]
        "t").comparison.length
      = ([entryOf 10 3, entryOf 20 4].filter fun ar =>
          (findSync [entryOf 10 2] ar.count).isSome).length ∧
    (generate_report [entryOf 10 3, entryOf 20 4] [entryOf 10 2]
        "t").comparison.length
      = (generate_report [entryOf 10 3, entryOf 20 4] [entryOf 10 2]
          "t").summary.asyncWins
        + (generate_report [entryOf 10 3, entryOf 20 4] [entryOf 10 2]
            "t").summary.syncWins := by
  have h := generate_report_comparison_matched [entryOf 10 3, entryOf 20 4]
    [entryOf 10 2] "t"
  have hmem : (generate_report [entryOf 10 3, entryOf 20 4] [entryOf 10 2]
      "t").comparison.headD default
      ∈ (generate_report [entryOf 10 3, entryOf 20 4] [entryOf 10 2]
          "t").comparison := by
    rw [show (generate_report [entryOf 10 3, entryOf 20 4] [entryOf 10 2]
        "t").comparison = [mkComp (entryOf 10 3) (entryOf 10 2)] from rfl]
    exact List.mem_singleton.mpr rfl
  exact ⟨(h.1 _ hmem).1, (h.1 _ hmem).2, h.2.1, h.2.2⟩

/-! ## Claim C3 -/

/-- C3: the declared winner of every comparison entry is async exactly
when the async throughput mean strictly exceeds the sync one, and sync
otherwise; with both means 0 the winner is sync and the percentage
difference is 0. -/
theorem generate_report_winner (asyncA syncA : List AnalysisEntry) (tt : String) :
    ∀ c ∈ (generate_report asyncA syncA tt).comparison,
      (c.faster = "async" ↔ c.syncOps < c.asyncOps) ∧
      (c.faster = "sync" ↔ ¬c.syncOps < c.asyncOps) ∧
      (c.asyncOps = 0 → c.syncOps = 0 →
        c.faster = "sync" ∧ c.diffPercent = PFloat.val 0) := by
  intro c hc
  rw [(generate_report_spec asyncA syncA tt).1] at hc
  obtain ⟨ar, _, sr, _, _, hceq⟩ := matchedComps_mem hc
  subst hceq
  by_cases hgt : sr.opsPerSecond.mean < ar.opsPerSecond.mean
  · have h1 : (mkComp ar sr).faster = "async" := by simp [mkComp, hgt]
    refine ⟨?_, ?_, ?_⟩
    · rw [h1]
      exact iff_of_true rfl hgt
    · rw [h1]
      exact iff_of_false (by decide) (not_not_intro hgt)
    · intro h0a h0s
      have h0a2 : ar.opsPerSecond.mean = 0 := h0a
      have h0s2 : sr.opsPerSecond.mean = 0 := h0s
      rw [h0a2, h0s2] at hgt
      exact absurd hgt (lt_irrefl 0)
  · have h1 : (mkComp ar sr).faster = "sync" := by simp [mkComp, hgt]
    refine ⟨?_, ?_, ?_⟩
    · rw [h1]
      exact iff_of_false (by decide) hgt
    · rw [h1]
      exact iff_of_true rfl hgt
    · intro h0a h0s
      have h0a2 : ar.opsPerSecond.mean = 0 := h0a
      have h0s2 : sr.opsPerSecond.mean = 0 := h0s
      refine ⟨h1, ?_⟩
      show perfDiffPercent ar.opsPerSecond.mean sr.opsPerSecond.mean = PFloat.val 0
      rw [h0a2, h0s2]
      simp [perfDiffPercent]

/-- Witness for C3 at two zero-throughput entries of the same count. -/
theorem generate_report_winner_witness :
    ((generate_report [entryOf 10 0] [entryOf 10 0]
        "t").comparison.headD default).faster = "sync" ∧
    ((generate_report [entryOf 10 0] [entryOf 10 0]
        "t").comparison.headD default).diffPercent = PFloat.val 0 := by
  have hmem : (generate_report [entryOf 10 0] [entryOf 10 0]
      "t").comparison.headD default
      ∈ (generate_report [entryOf 10 0] [entryOf 10 0] "t").comparison := by
    rw [show (generate_report [entryOf 10 0] [entryOf 10 0] "t").comparison
        = [mkComp (entryOf 10 0) (entryOf 10 0)] from rfl]
    exact List.mem_singleton.mpr rfl
  exact (generate_report_winner [entryOf 10 0] [entryOf 10 0] "t" _ hmem).2.2 rfl rfl

/-! ## Claim C2 -/

/-- C2 counterexample: with an aggregate throughput mean of 1 against 0,
generate_report stores float("inf") as the percentage difference, not 100
as the claim states. -/
theorem percentage_difference_inf_counterexample :
    ((generate_report [entryOf 10 1] [entryOf 10 0] "standard").comparison.map
        fun c => c.diffPercent) = [PFloat.inf] ∧
    PFloat.inf ≠ PFloat.val 100 := by
  refine ⟨rfl, ?_⟩
  intro h
  exact PFloat.noConfusion h

/-- C2 (amended): the percentage difference is ((A - B) / B) * 100 when
B > 0 in both reporters; when B = 0 and A > 0 generate_report stores
float("inf") while analyze_advanced_results stores the sentinel 100; both
store 0 when A = B = 0; and every generate_report comparison entry carries
exactly perfDiffPercent of its two means. -/
theorem percentage_difference_spec (a b : ℚ) :
    (b > 0 → perfDiffPercent a b = PFloat.val ((a - b) / b * 100) ∧
      advPercentageDiff a b = (a - b) / b * 100) ∧
    (b = 0 → 0 < a → perfDiffPercent a b = PFloat.inf ∧
      advPercentageDiff a b = 100) ∧
    (b = 0 → a = 0 → perfDiffPercent a b = PFloat.val 0 ∧
      advPercentageDiff a b = 0) ∧
    (∀ asyncA syncA tt, ∀ c ∈ (generate_report asyncA syncA tt).comparison,
      c.diffPercent = perfDiffPercent c.asyncOps c.syncOps) := by
  refine ⟨?_, ?_, ?_, ?_⟩
  · intro hb
    exact ⟨by simp [perfDiffPercent, hb], by simp [advPercentageDiff, hb]⟩
  · intro hb ha
    subst hb
    exact ⟨by simp [perfDiffPercent, ha], by simp [advPercentageDiff, ha]⟩
  · intro hb ha
    subst hb; subst ha
    exact ⟨by simp [perfDiffPercent], by simp [advPercentageDiff]⟩
  · intro asyncA syncA tt c hc
    rw [(generate_report_spec asyncA syncA tt).1] at hc
    obtain ⟨ar, _, sr, _, _, hceq⟩ := matchedComps_mem hc
    subst hceq
    rfl

/-- Witness for C2 (amended) at B = 2, B = 0 with A = 1, and A = B = 0. -/
theorem percentage_difference_spec_witness :
    perfDiffPercent 1 2 = PFloat.val ((1 - 2) / 2 * 100) ∧
    perfDiffPercent 1 0 = PFloat.inf ∧
    advPercentageDiff 1 0 = 100 ∧
    perfDiffPercent 0 0 = PFloat.val 0 ∧
    advPercentageDiff 0 0 = 0 :=
  ⟨((percentage_difference_spec 1 2).1 (by norm_num)).1,
   ((percentage_difference_spec 1 0).2.1 rfl (by norm_num)).1,
   ((percentage_difference_spec 1 0).2.1 rfl (by norm_num)).2,
   ((percentage_difference_spec 0 0).2.2.1 rfl rfl).1,
   ((percentage_difference_spec 0 0).2.2.1 rfl rfl).2⟩

/-! ## Claim C7 -/

/-- C7: every benchmark endpoint computes operations_per_second as
operations / execution_time when execution_time > 0 and as exactly 0 when
execution_time = 0; the division is always behind that guard, so the
endpoints never divide by zero. -/
theorem benchmark_ops_per_second_guarded (operations : ℕ) (t : ℚ) :
    (t > 0 → opsPerSecondOf operations t = (operations : ℚ) / t) ∧
    (t = 0 → opsPerSecondOf operations t = 0) ∧
    (∀ count, (benchmark_async count t).opsPerSecond = opsPerSecondOf (count * 2) t ∧
      (benchmark_sync count t).opsPerSecond = opsPerSecondOf (count * 2) t) ∧
    (∀ database count s0, ((benchmark_mixed database count s0 t).1).opsPerSecond
        = opsPerSecondOf (mixedLoop count s0).operations t) ∧
    (∀ count concurrency,
      (benchmark_concurrent_sync count concurrency t).opsPerSecond
        = opsPerSecondOf (benchmark_concurrent_sync count concurrency t).operations t) := by
  refine ⟨?_, ?_, ?_, ?_, ?_⟩
  · intro ht
    simp [opsPerSecondOf, ht]
  · intro ht
    simp [opsPerSecondOf, ht]
  · intro count
    exact ⟨rfl, rfl⟩
  · intro database count s0
    rfl
  · intro count concurrency
    rfl

/-- Witness for C7 at 4 operations with elapsed times 2 and 0. -/
theorem benchmark_ops_per_second_guarded_witness :
    opsPerSecondOf 4 2 = ((4 : ℕ) : ℚ) / 2 ∧ opsPerSecondOf 4 0 = 0 :=
  ⟨(benchmark_ops_per_second_guarded 4 2).1 (by norm_num),
   (benchmark_ops_per_second_guarded 4 0).2.1 rfl⟩

/-! ## Concurrent benchmark evaluation -/

theorem filterMap_toOption_ok {α β : Type} (f : α → Except PyError β) (g : α → β)
    (l : List α) (h : ∀ a ∈ l, f a = .ok (g a)) :
    (l.filterMap fun a => (f a).toOption) = l.map g := by
  induction l with
  | nil => rfl
  | cons a l ih =>
    rw [List.filterMap_cons, h a (List.mem_cons_self a l)]
    show g a :: List.filterMap (fun a => (f a).toOption) l = List.map g (a :: l)
    rw [List.map_cons, ih fun x hx => h x (List.mem_cons_of_mem a hx)]

theorem map_const_range {β : Type} (n : ℕ) (c : β) (f : ℕ → β)
    (h : ∀ i, f i = c) : (List.range n).map f = List.replicate n c := by
  rw [List.eq_replicate_iff]
  refine ⟨by simp, ?_⟩
  intro b hb
  obtain ⟨a, _, hab⟩ := List.mem_map.mp hb
  rw [← hab, h a]

theorem db_task_ok (count concurrency i : ℕ) (h : concurrency ≠ 0) :
    db_task count concurrency i = .ok (3 * (count / concurrency)) := by
  simp [db_task, pyFloorDiv, h]

theorem importFromDb_async_session :
    importFromDb "async_session" = .error .importError := rfl

theorem benchmark_concurrent_import_error (count concurrency : ℕ) (t : ℚ) :
    benchmark_concurrent count concurrency t = .error .importError := by
  unfold benchmark_concurrent
  rw [importFromDb_async_session]
  rfl

theorem benchmark_concurrent_sync_eval (count concurrency : ℕ) (t : ℚ) :
    benchmark_concurrent_sync count concurrency t =
      { database := "psycopg2"
        operations := concurrency * (3 * (count / concurrency))
        executionTime := t
        opsPerSecond := opsPerSecondOf (concurrency * (3 * (count / concurrency))) t
        concurrency := concurrency } := by
  by_cases h : concurrency = 0
  · subst h
    simp only [benchmark_concurrent_sync, List.range_zero, Nat.zero_mul]
    rfl
  · have hrep := map_const_range concurrency (3 * (count / concurrency))
      (fun _ => 3 * (count / concurrency)) fun _ => rfl
    unfold benchmark_concurrent_sync
    rw [filterMap_toOption_ok (db_task count concurrency)
      (fun _ => 3 * (count / concurrency)) (List.range concurrency)
      fun a _ => db_task_ok count concurrency a h]
    rw [hrep]
    simp [List.sum_replicate, smul_eq_mul]

/-! ## Claim C1 -/

/-- C1 counterexample: with concurrency = 0 the run does not fail with a
ConfigurationError (no such error exists in the code).  The async endpoint
fails with the ImportError raised by from db import async_session — and it
fails identically at concurrency = 5, so the failure is not the claimed
concurrency-0 configuration check; the sync endpoint does not fail at all
and returns normally with 0 operations and no database operation issued. -/
theorem benchmark_concurrent_zero_counterexample :
    benchmark_concurrent 100 0 1 = .error .importError ∧
    benchmark_concurrent 100 5 1 = .error .importError ∧
    benchmark_concurrent_sync 100 0 1 =
      { database := "psycopg2", operations := 0, executionTime := 1,
        opsPerSecond := 0, concurrency := 0 } := by
  refine ⟨benchmark_concurrent_import_error 100 0 1,
    benchmark_concurrent_import_error 100 5 1, ?_⟩
  rw [benchmark_concurrent_sync_eval]
  norm_num [opsPerSecondOf]

/-- C1 (amended): no ConfigurationError exists; concurrency = 0 is never
specially detected.  The async concurrent benchmark fails on every
invocation — any count, any concurrency — with the ImportError raised by
from db import async_session before any timing, sampling or task creation.
The sync concurrent benchmark raises no error for any concurrency: with
concurrency = 0 it creates no worker thread, count // concurrency is never
evaluated, and it returns normally with operations = 0. -/
theorem benchmark_concurrent_zero_behavior (count : ℕ) (t : ℚ) :
    (∀ concurrency,
      benchmark_concurrent count concurrency t = .error .importError) ∧
    benchmark_concurrent_sync count 0 t =
      { database := "psycopg2", operations := 0, executionTime := t,
        opsPerSecond := opsPerSecondOf 0 t, concurrency := 0 } ∧
    (∀ concurrency, (benchmark_concurrent_sync count concurrency t).operations
        = concurrency * (3 * (count / concurrency))) := by
  refine ⟨fun concurrency => benchmark_concurrent_import_error count concurrency t,
    ?_, ?_⟩
  · rw [benchmark_concurrent_sync_eval]
    norm_num
  · intro concurrency
    rw [benchmark_concurrent_sync_eval]

/-! ## Claim C9 -/

/-- C9 counterexample: at count = 100, concurrency = 5 the async
concurrent benchmark hands no worker any share at all: every invocation
fails with ImportError before a task is created, so the claimed 5 shares
of 20 iterations never happen on the async endpoint. -/
theorem benchmark_concurrent_shares_counterexample :
    benchmark_concurrent 100 5 1 = .error .importError ∧
    (benchmark_concurrent 100 5 1).toOption = none := by
  refine ⟨benchmark_concurrent_import_error 100 5 1, ?_⟩
  rw [benchmark_concurrent_import_error 100 5 1]
  rfl

/-- C9 (amended): for concurrency ≥ 1 the per-worker task body gives every
worker exactly count // concurrency loop iterations (all shares equal,
3 operations per iteration), the sync endpoint reports
concurrency * (3 * (count // concurrency)) total operations, and the
remainder count mod concurrency is dropped, never redistributed: the
shares plus the remainder reconstitute count.  The async endpoint never
reaches its identical share logic — every invocation fails with
ImportError before a worker is created. -/
theorem benchmark_concurrent_shares (count concurrency : ℕ) (t : ℚ)
    (h : 1 ≤ concurrency) :
    ((List.range concurrency).map (db_task count concurrency)
      = List.replicate concurrency (Except.ok (3 * (count / concurrency)))) ∧
    (benchmark_concurrent_sync count concurrency t).operations
      = concurrency * (3 * (count / concurrency)) ∧
    benchmark_concurrent count concurrency t = .error .importError ∧
    concurrency * (count / concurrency) + count % concurrency = count := by
  have h0 : concurrency ≠ 0 := by omega
  refine ⟨map_const_range _ _ _ fun i => db_task_ok count concurrency i h0, ?_,
    benchmark_concurrent_import_error count concurrency t,
    Nat.div_add_mod count concurrency⟩
  rw [benchmark_concurrent_sync_eval]

/-- Witness for C9 at count = 100 and count = 101 with concurrency = 5:
5 equal shares of 20 iterations; for 101 the remainder 1 is dropped. -/
theorem benchmark_concurrent_shares_witness :
    ((List.range 5).map (db_task 100 5)
      = List.replicate 5 (Except.ok (3 * (100 / 5)))) ∧
    ((List.range 5).map (db_task 101 5)
      = List.replicate 5 (Except.ok (3 * (101 / 5)))) ∧
    (benchmark_concurrent_sync 101 5 1).operations = 5 * (3 * (101 / 5)) ∧
    5 * (101 / 5) + 101 % 5 = 101 :=
  ⟨(benchmark_concurrent_shares 100 5 1 (by norm_num)).1,
   (benchmark_concurrent_shares 101 5 1 (by norm_num)).1,
   (benchmark_concurrent_shares 101 5 1 (by norm_num)).2.1,
   (benchmark_concurrent_shares 101 5 1 (by norm_num)).2.2.2⟩

/-! ## Claim C8 -/

/-- C8: the mixed benchmark partitions its count iterations into
create/read/update/delete buckets by index modulo 4 (count = 8 gives
exactly 2 iterations of each bucket), and the operations counter
increments only for sub-operations actually performed: create and read
add 2, update and delete add 1 per existing target, and a missing target
makes the sub-operation a silent no-op (state unchanged, no error). -/
theorem benchmark_mixed_buckets (i : ℕ) (s : MixedState) :
    (((List.range 8).countP fun j => mixedBucket j == 0) = 2 ∧
     ((List.range 8).countP fun j => mixedBucket j == 1) = 2 ∧
     ((List.range 8).countP fun j => mixedBucket j == 2) = 2 ∧
     ((List.range 8).countP fun j => mixedBucket j == 3) = 2) ∧
    (mixedBucket i = 0 → (mixedStep i s).operations = s.operations + 2) ∧
    (mixedBucket i = 1 →
      mixedStep i s = { s with operations := s.operations + 2 }) ∧
    (mixedBucket i = 2 →
      (mixedStep i s).operations = s.operations
        + (if s.users.isEmpty then 0 else 1)
        + (if s.products.isEmpty then 0 else 1) ∧
      (mixedStep i s).users = s.users ∧
      (mixedStep i s).products = s.products) ∧
    (mixedBucket i = 3 →
      (mixedStep i s).operations = s.operations
        + (if s.users.isEmpty then 0 else 1)
        + (if s.products.isEmpty then 0 else 1)) ∧
    ((mixedBucket i = 2 ∨ mixedBucket i = 3) → s.users = [] → s.products = [] →
      mixedStep i s = s) := by
  refine ⟨⟨by decide, by decide, by decide, by decide⟩, ?_, ?_, ?_, ?_, ?_⟩
  · intro h
    simp [mixedStep, h]
  · intro h
    simp [mixedStep, h]
  · intro h
    by_cases hu : s.users.isEmpty <;> by_cases hp : s.products.isEmpty <;>
      simp [mixedStep, h, hu, hp]
  · intro h
    by_cases hu : s.users.isEmpty <;> by_cases hp : s.products.isEmpty <;>
      simp [mixedStep, h, hu, hp]
  · intro h hu hp
    rcases h with h | h <;> simp [mixedStep, h, hu, hp]

/-- Witness for C8 at the update bucket (index 2) over an empty database:
no operation is counted and the state is untouched. -/
theorem benchmark_mixed_buckets_witness :
    ((List.range 8).countP fun j => mixedBucket j == 0) = 2 ∧
    (mixedStep 2 ⟨[], [], 0, 0, 7⟩).operations
      = 7 + (if ([] : List ℕ).isEmpty then 0 else 1)
          + (if ([] : List ℕ).isEmpty then 0 else 1) ∧
    mixedStep 2 ⟨[], [], 0, 0, 7⟩ = ⟨[], [], 0, 0, 7⟩ :=
  ⟨(benchmark_mixed_buckets 0 ⟨[], [], 0, 0, 0⟩).1.1,
   ((benchmark_mixed_buckets 2 ⟨[], [], 0, 0, 7⟩).2.2.2.1 rfl).1,
   (benchmark_mixed_buckets 2 ⟨[], [], 0, 0, 7⟩).2.2.2.2.2 (Or.inl rfl) rfl rfl⟩

/-! ## Claim C10 -/

/-- C10 counterexample: a create request with a fresh username but an
email colliding with an existing row passes the endpoint's only existence
check (username) and hits the unique email index at commit, surfacing as a
raw IntegrityError instead of a domain conflict error. -/
theorem create_user_email_collision_counterexample :
    create_user "bob" "a@x.com" none
      { users := [{ id := 0, username := "alice", email := "a@x.com", fullName := none }]
        products := [], nextUserId := 1, nextProductId := 0 }
      = .error .integrityError ∧
    ApiError.integrityError ≠ ApiError.httpException 400 "Email already registered" := by
  refine ⟨rfl, ?_⟩
  intro h
  exact ApiError.noConfusion h

/-- C10 (amended): create requests colliding on username (users) or sku
(products) get a domain HTTP 400 conflict error from the endpoint and no
row is created; an email collision is not checked by create_user and
surfaces as a raw database IntegrityError (the failed commit creates no
row either); on success exactly the new row is appended. -/
theorem create_conflict_detection (db : Db) (username email : String)
    (fullName : Option String) (name : String) (price : ℚ) (sku : String)
    (description : Option String) :
    (db.users.any (fun u => u.username == username) = true →
      create_user username email fullName db
        = .error (.httpException 400 "Username already registered")) ∧
    (db.users.any (fun u => u.username == username) = false →
     db.users.any (fun u => u.email == email) = true →
      create_user username email fullName db = .error .integrityError) ∧
    (db.products.any (fun p => p.sku == sku) = true →
      create_product name price sku description db
        = .error (.httpException 400 "Product with this SKU already exists")) ∧
    (∀ u db2, create_user username email fullName db = .ok (u, db2) →
      db2.users = db.users ++ [u]) ∧
    (∀ p db2, create_product name price sku description db = .ok (p, db2) →
      db2.products = db.products ++ [p]) := by
  refine ⟨?_, ?_, ?_, ?_, ?_⟩
  · intro h
    simp [create_user, h]
  · intro h1 h2
    simp [create_user, h1, h2]
  · intro h
    simp [create_product, h]
  · intro u db2 h
    unfold create_user at h
    split_ifs at h <;> simp at h
    obtain ⟨h3, h4⟩ := h
    subst h4
    subst h3
    rfl
  · intro p db2 h
    unfold create_product at h
    split_ifs at h <;> simp at h
    obtain ⟨h3, h4⟩ := h
    subst h4
    subst h3
    rfl

/-- Witness for C10 (amended) at a one-user, one-product database. -/
theorem create_conflict_detection_witness :
    create_user "alice" "new@x.com" none
      { users := [{ id := 0, username := "alice", email := "a@x.com", fullName := none }]
        products := [], nextUserId := 1, nextProductId := 0 }
      = .error (.httpException 400 "Username already registered") ∧
    create_user "bob" "a@x.com" none
      { users := [{ id := 0, username := "alice", email := "a@x.com", fullName := none }]
        products := [], nextUserId := 1, nextProductId := 0 }
      = .error .integrityError ∧
    create_product "p" 1 "S1" none
      { users := [], products := [{ id := 0, name := "q", price := 2, sku := "S1", description := none }]
        nextUserId := 0, nextProductId := 1 }
      = .error (.httpException 400 "Product with this SKU already exists") :=
  ⟨(create_conflict_detection
      { users := [{ id := 0, username := "alice", email := "a@x.com", fullName := none }]
        products := [], nextUserId := 1, nextProductId := 0 }
      "alice" "new@x.com" none "p" 1 "S1" none).1 (by decide),
   (create_conflict_detection
      { users := [{ id := 0, username := "alice", email := "a@x.com", fullName := none }]
        products := [], nextUserId := 1, nextProductId := 0 }
      "bob" "a@x.com" none "p" 1 "S1" none).2.1 (by decide) (by decide),
   (create_conflict_detection
      { users := [], products := [{ id := 0, name := "q", price := 2, sku := "S1", description := none }]
        nextUserId := 0, nextProductId := 1 }
      "bob" "a@x.com" none "p" 1 "S1" none).2.2.1 (by decide)⟩

end Bench
